import Mathlib

/-!
Verification development for the vmware-esxi-kickstart-client repository
(`main.go`).  The Go source is shallowly embedded: each Go helper becomes an
executable Lean definition over plain data (machine bytes become `Nat` with
explicit `% 256`, Go strings become `String` or `List Char`, fallible calls
become sum types), and the per-host provisioning handler `vmCreateHandler`
becomes a function from an environment of backend/installer call results to a
terminal outcome together with the trace of calls it performed.
-/

/-! ## Go string helpers

`goSplit sep s` embeds Go `strings.Split(s, sep)` for a one-character
separator (the only shape `main.go` uses: separators `"{"`, `"}"`, `","`,
`"="`).  Go returns the list of substrings between occurrences of the
separator; the result always has (number of occurrences + 1) elements. -/
def goSplit (sep : Char) : List Char → List (List Char)
  | [] => [[]]
  | c :: cs =>
    match goSplit sep cs with
    | [] => [[]]
    | p :: ps => if c = sep then [] :: p :: ps else (c :: p) :: ps

/-- Value of a nonempty all-digit character list, `none` otherwise.
Embeds the digit-consuming core of Go `strconv.Atoi`. -/
def digitsVal (s : List Char) : Option Nat :=
  if s = [] then none
  else if s.all (fun c => c.isDigit) then
    some (s.foldl (fun acc c => acc * 10 + (c.toNat - 48)) 0)
  else none

/-- Embeds Go `strconv.Atoi`: an optional sign followed by at least one
digit; anything else is an error (`none`).  (Go's overflow error is not
modelled; the repository only feeds small template numbers through it.) -/
def goAtoi : List Char → Option Int
  | '+' :: rest => (digitsVal rest).map (fun n => (n : Int))
  | '-' :: rest => (digitsVal rest).map (fun n => -(n : Int))
  | s => (digitsVal s).map (fun n => (n : Int))

/-- Embeds Go `fmt.Sprintf("%0wd", j)`: decimal digits of `j`, left-padded
with zeros to total width `w` (the sign, when present, counts toward the
width and precedes the zeros).  A non-positive width pads nothing, matching
the `"%00d"` format the code builds when no `fixed=` clause is given. -/
def zeroPadInt (w : Int) (j : Int) : List Char :=
  if j < 0 then
    let ds := (toString (-j).toNat).toList
    '-' :: List.replicate (w.toNat - (ds.length + 1)) '0' ++ ds
  else
    let ds := (toString j.toNat).toList
    List.replicate (w.toNat - ds.length) '0' ++ ds

/-! ## NamingSequenceGenerator (`calcurateNamePrefix`, main.go:98-120) -/

/-- Result of the Go `calcurateNamePrefix` helper (main.go:98).  The Go
function returns `(n, prefix+"%0{padding}d")`; failure modes:
* `crashIdx` — an out-of-range slice index, i.e. an uncontrolled Go panic
  (`parts[1]` when the template has no `"{"`, or `Split(...,"=")[1]` when the
  second comma-field has no `"="`);
* `badStart` — `log.Fatalf` because the start value is not an integer;
* `badFixed` — `log.Fatalf` because the `fixed=` value is not an integer. -/
inductive NameCalc where
  | crashIdx : NameCalc
  | badStart : NameCalc
  | badFixed : NameCalc
  | ok : Int → Int → List Char → NameCalc
deriving DecidableEq

/-- Embeds the Go template parser `calcurateNamePrefix` (main.go:98-120,
spelling as in the source), here under a Lean-friendly name.
`ok n padding pre` stands for the Go return value
`(n, pre + "%0{padding}d")`. -/
def calcurateNamePart (t : List Char) : NameCalc :=
  match goSplit '{' t with
  | [] => .crashIdx
  | [_] => .crashIdx
  | p0 :: p1 :: _ =>
    let fd := (goSplit '}' p1).headD []
    match goSplit ',' fd with
    | [] => .crashIdx
    | s0 :: restParts =>
      match goAtoi s0 with
      | none => .badStart
      | some n =>
        match restParts with
        | [] => .ok n 0 p0
        | s1 :: _ =>
          match goSplit '=' s1 with
          | [] => .crashIdx
          | [_] => .crashIdx
          | _ :: eq1 :: _ =>
            match goAtoi eq1 with
            | none => .badFixed
            | some padding => .ok n padding p0

/-- The name-generation loop of `main` (main.go:644-651): starting from the
parsed template start value `j`, produce one formatted name per replica,
incrementing `j` each iteration.  (The `"." + domain` suffix `main` appends
to form the FQDN is factored out in `mainHostnames` below.) -/
def genNamesAux (p : List Char) (w : Int) : Int → Nat → List (List Char)
  | _, 0 => []
  | j, Nat.succ k => (p ++ zeroPadInt w j) :: genNamesAux p w (j + 1) k

/-- Names produced by the NamingSequenceGenerator for a template and a
replica count: `none` when template parsing does not reach the `ok` case
(in Go the process has died or panicked before generating any name). -/
def generatedNames (t : List Char) (replica : Nat) : Option (List (List Char)) :=
  match calcurateNamePart t with
  | .ok n w p => some (genNamesAux p w n replica)
  | _ => none

/-- The fully-qualified names `main` actually passes to the workers:
each generated name with `"." ++ domain` appended (main.go:646). -/
def mainHostnames (t : List Char) (domain : List Char) (replica : Nat) :
    Option (List (List Char)) :=
  (generatedNames t replica).map (List.map (fun nm => nm ++ '.' :: domain))

/-! ## NetworkAddressAllocator (`validateNetworkAddr`, main.go:600-614, and
the address bump in `main`, main.go:647-649)

IP addresses are embedded as lists of octet values (`List Nat`, each entry
`< 256` for a real address).  A Go `nil` IP — the result of `net.ParseIP` on
unparsable text — is embedded as `[]`. -/

/-- Embeds Go `net.IP.Mask`: when the (To4-normalised) lengths agree, the
bytewise AND; on a length mismatch Go returns `nil`, embedded as `[]`.
(The 4-byte/16-byte representation adjustment Go performs first is already
accounted for by embedding parsed IPv4 addresses in 4-octet form.) -/
def goMask (ip mask : List Nat) : List Nat :=
  if ip.length = mask.length then List.zipWith Nat.land ip mask else []

/-- Embeds Go `validateNetworkAddr` (main.go:600-614).  Arguments are the
parse results of `esxiInfo.StartIP`, `net.ParseIP(esxiInfo.Netmask).To4()`
and `esxiInfo.Gateway` (`[]` when parsing failed).  Go's `IP.Equal` on the
two masked values reduces to list equality here (both results have equal
4-octet length, or are both empty).  The Go error string contains an
apostrophe ("ESXi's"); it is dropped here. -/
def validateNetworkAddr (startIP netmask gateway : List Nat) : Except String Unit :=
  let network := goMask startIP netmask
  let gwnetwork := goMask gateway netmask
  if gwnetwork = network then .ok ()
  else .error "Gateway and ESXi IP are not on same subnet."

/-- Embeds the per-replica address computation of `main` (main.go:647-649):
copy the 4-octet start address and do `ip[3] += byte(i)` — Go byte
arithmetic, i.e. truncate `i` to 8 bits and add modulo 256. -/
def allocIP (start : List Nat) (i : Nat) : List Nat :=
  start.set 3 ((start.getD 3 0 + i % 256) % 256)

/-! ## DeviceSpecBuilder (`createScsiController` main.go:534-548,
`createVirtualDisk` main.go:550-583, `createNetwork` main.go:585-598) -/

/-- Fields of a `types.VirtualDisk` that the code sets. -/
structure DiskSpec where
  key : Int
  unitNumber : Nat
  capacityKB : Int
  fileName : String
  controllerKey : Int
deriving DecidableEq

/-- One entry of an `object.VirtualDeviceList`. -/
inductive Device where
  | scsi : Int → Device
  | disk : DiskSpec → Device
  | nic : Int → Device
deriving DecidableEq

/-- Fresh device key from `VirtualDeviceList.NewKey` — SDK code outside this
repository; modelled as a negative key derived from the list length.  No
claim depends on the key values, only on their being produced per device. -/
def newKey (devices : List Device) : Int :=
  -((devices.length : Int) + 1)

/-- Embeds Go `createScsiController` (main.go:534-548): appends one
paravirtual SCSI controller and returns its key. -/
def createScsiController (devices : List Device) : List Device × Int :=
  let k := newKey devices
  (devices ++ [.scsi k], k)

/-- Embeds Go `createVirtualDisk` (main.go:550-583): appends one
thin-provisioned disk for storage index `i`.  Unit number: `*UnitNumber = i`,
then `if i >= 7 { *UnitNumber++ }`.  Capacity: `CapacityInKB = capacityGB *
1024 * 1024` (the Go parameter is named `diskSizeKB` but is passed the
configured `CapacityGB`).  File name: `[ds] vm/vm.vmdk` for index 0,
`[ds] vm/vm_i.vmdk` otherwise. -/
def createVirtualDisk (i : Nat) (devices : List Device) (capacityGB : Int)
    (vmName : String) (scsictlKey : Int) (datastore : String) : List Device :=
  let unit := if 7 ≤ i then i + 1 else i
  let filename :=
    if i = 0 then "[" ++ datastore ++ "] " ++ vmName ++ "/" ++ vmName ++ ".vmdk"
    else "[" ++ datastore ++ "] " ++ vmName ++ "/" ++ vmName ++ "_" ++ toString i ++ ".vmdk"
  devices ++ [.disk { key := newKey devices, unitNumber := unit,
                      capacityKB := capacityGB * 1024 * 1024,
                      fileName := filename, controllerKey := scsictlKey }]

/-- The disk-adding loop of `vmCreateHandler` (main.go:223-225):
`for i, datastore := range vmParam.Storages { devices = createVirtualDisk(i, ...) }`,
embedded with the running index made explicit. -/
def addDisks (vmName : String) (scsictlKey : Int) :
    Nat → List (String × Int) → List Device → List Device
  | _, [], devices => devices
  | i, (ds, cap) :: rest, devices =>
    addDisks vmName scsictlKey (i + 1) rest
      (createVirtualDisk i devices cap vmName scsictlKey ds)

/-- Device list built for the configured storages: the SCSI controller from
`createScsiController` followed by one disk per `{datastore, capacityGB}`
entry, as `vmCreateHandler` builds it (main.go:221-225). -/
def buildStorageDevices (storages : List (String × Int)) (vmName : String) :
    List Device :=
  let (devices, scsictlKey) := createScsiController []
  addDisks vmName scsictlKey 0 storages devices

/-- Unit numbers of the disks of a device list, in order. -/
def diskUnits (devices : List Device) : List Nat :=
  devices.filterMap (fun d =>
    match d with
    | .disk ds => some ds.unitNumber
    | _ => none)

/-- The unit-number rule in the words of the specification sentence
"assigns disk i the unit number i, bumped by one when the index would equal
the reserved controller unit number 7" — bumped exactly at index 7.
Stated for comparison with the source's rule (`createVirtualDisk`). -/
def specUnitNumber (i : Nat) : Nat :=
  if i = 7 then i + 1 else i

/-! ## Guest-OS identifier resolution (`decideGuestId`, main.go:427-460) -/

/-- Result of `decideGuestId`: `fatal` stands for `log.Fatalf` (process
death), `ok` carries the guest identifier. -/
inductive GuestIdRes where
  | fatal : GuestIdRes
  | ok : String → GuestIdRes
deriving DecidableEq

/-- The catalog-scanning loop of `decideGuestId` (main.go:443-447): iterate
the decoded `uploaded_esxi_list` entries and remember the version of every
entry whose filename matches; `esxiVersion` keeps its zero value `""` when
no entry matches. -/
def lookupVersion (catalog : List (String × String)) (iso : String) : String :=
  catalog.foldl (fun acc kv => if kv.1 = iso then kv.2 else acc) ""

/-- Embeds Go `decideGuestId` (main.go:427-460).  `httpOk`/`decodeOk` are
the outcomes of the `http.Get` and JSON decode calls (each failure is a
`log.Fatalf`); `catalog` is the decoded `uploaded_esxi_list` in iteration
order.  The Go `switch` on the remembered version: `""` (filename absent)
is fatal, `"6.0.0"`, `"6.5.0"`/`"6.7.0"` and the default each select an
identifier. -/
def decideGuestId (httpOk decodeOk : Bool) (catalog : List (String × String))
    (iso : String) : GuestIdRes :=
  if httpOk then
    if decodeOk then
      let esxiVersion := lookupVersion catalog iso
      if esxiVersion = "" then .fatal
      else if esxiVersion = "6.0.0" then .ok "vmkernel6Guest"
      else if esxiVersion = "6.5.0" then .ok "vmkernel65Guest"
      else if esxiVersion = "6.7.0" then .ok "vmkernel65Guest"
      else .ok "vmkernel7Guest"
    else .fatal
  else .fatal

/-! ## GuestIPWaiter (`waitForIP`, main.go:462-491)

The unbounded ticker loop is embedded over a finite observation script: one
`PollEvent` per loop iteration, in order. -/

/-- One iteration of the `waitForIP` select/loop: the context is cancelled,
the property read fails, or the property read yields an IP string. -/
inductive PollEvent where
  | cancel : PollEvent
  | readErr : PollEvent
  | read : String → PollEvent
deriving DecidableEq

/-- Outcome of `waitForIP` on a finite script: `success` (`return nil` on an
exact match), `cancelled` (`return ctx.Err()`), `failed` (property read
error returned), or `pending` — the script is exhausted and the loop is
still polling (the Go loop has no retry bound). -/
inductive WaitRes where
  | success : WaitRes
  | cancelled : WaitRes
  | failed : WaitRes
  | pending : WaitRes
deriving DecidableEq

/-- Embeds Go `waitForIP` (main.go:462-491): on each tick, re-read the guest
IP property; return success exactly when the read value equals the target,
otherwise log and keep looping. -/
def waitForIP (targetIP : String) : List PollEvent → WaitRes
  | [] => .pending
  | .cancel :: _ => .cancelled
  | .readErr :: _ => .failed
  | .read ip :: rest => if ip = targetIP then .success else waitForIP targetIP rest

/-- A poll event that does not end the loop: a property read of a
non-matching address. -/
def nonMatching (targetIP : String) (e : PollEvent) : Prop :=
  ∃ ip, e = PollEvent.read ip ∧ ip ≠ targetIP

/-! ## HostProvisioningWorker (`vmCreateHandler`, main.go:122-425)

The handler is embedded as a function from an environment — the result of
every backend/installer call it may make, in program order — to a terminal
outcome and the trace of calls performed.  Outcome values mirror the three
ways a Go call failure ends the handler:
* `log.Fatalf` kills the whole process (every goroutine) — `fatal`;
* `fmt.Println(err); return` ends only this worker — `workerReturn`;
* a nil dereference (ignored error followed by a method call on the nil
  result) kills the process with a runtime panic — `panicked`. -/

/-- Result of `finder.VirtualMachine(ctx, hostname)` (main.go:145): the VM
exists, a `*find.NotFoundError` was returned, or some other lookup error. -/
inductive VMLookup where
  | found : VMLookup
  | notFound : VMLookup
  | lookupErr : VMLookup
deriving DecidableEq

/-- One iteration of the power-state poll loop (main.go:328-340):
`RetrieveOne` fails, reports a state other than poweredOff, or reports
poweredOff. -/
inductive PowerPoll where
  | pollErr : PowerPoll
  | stillOn : PowerPoll
  | poweredOff : PowerPoll
deriving DecidableEq

/-- Outcome of the power-state poll loop over a finite script. -/
inductive PowerLoopRes where
  | retrieveFailed : PowerLoopRes
  | off : PowerLoopRes
  | hung : PowerLoopRes
deriving DecidableEq

/-- Embeds the power-state poll loop (main.go:328-340): retrieve the power
state forever until it is poweredOff; a retrieve error is `log.Fatalf`. -/
def powerLoop : List PowerPoll → PowerLoopRes
  | [] => .hung
  | .pollErr :: _ => .retrieveFailed
  | .stillOn :: rest => powerLoop rest
  | .poweredOff :: _ => .off

/-- Terminal outcome of one `vmCreateHandler` goroutine. -/
inductive Outcome where
  | fatal : Outcome
  | workerReturn : Outcome
  | skip : Outcome
  | done : Outcome
  | panicked : Outcome
  | hang : Outcome
deriving DecidableEq

/-- The backend/installer calls `vmCreateHandler` can perform, in the order
the code makes them. -/
inductive Call where
  | connect : Call
  | dcLookup : Call
  | vmLookup : Call
  | foldersLookup : Call
  | folderLookup : Call
  | rpLookup : Call
  | installerGetVersions : Call
  | netLookup : Call
  | backingLookup : Call
  | buildConfigSpec : Call
  | createVM : Call
  | waitTask : Call
  | readProps : Call
  | installerPost : Call
  | powerOn : Call
  | pollGuestIP : Call
  | shutdownGuest : Call
  | readPowerState : Call
  | reconfigure : Call
  | installerDelete : Call
deriving DecidableEq

/-- The network-device loop of `vmCreateHandler` (main.go:226-239): for each
configured network, `finder.Network` then `EthernetCardBackingInfo`; either
failure is `log.Fatalf`.  Each list entry gives (lookup succeeded, backing
succeeded); the result is whether the loop completed, with its trace. -/
def netLoop : List (Bool × Bool) → Bool × List Call
  | [] => (true, [])
  | (l, b) :: rest =>
    if l then
      if b then
        let r := netLoop rest
        (r.1, Call.netLookup :: Call.backingLookup :: r.2)
      else (false, [Call.netLookup, Call.backingLookup])
    else (false, [Call.netLookup])

/-- Results of every backend/installer call `vmCreateHandler` may make, in
program order, plus the two configuration inputs that steer its control flow
(`isofilename` and the `changemac` flag).  `Bool` fields are `true` when the
corresponding Go call returns without error. -/
structure Env where
  changemac : Bool
  isofilename : String
  targetIP : String
  connectOk : Bool
  dcOk : Bool
  findVM : VMLookup
  foldersOk : Bool
  folderOk : Bool
  rpOk : Bool
  httpGetOk : Bool
  decodeOk : Bool
  catalog : List (String × String)
  netResults : List (Bool × Bool)
  configSpecOk : Bool
  createOk : Bool
  waitCreateOk : Bool
  propsOk : Bool
  bootMac : String
  postOk : Bool
  powerOnOk : Bool
  waitPowerOnOk : Bool
  polls1 : List PollEvent
  finalNetOk : Bool
  finalBackingOk : Bool
  shutdownOk : Bool
  powerPolls : List PowerPoll
  reconfigRemoveOk : Bool
  waitRemoveOk : Bool
  reconfigAddOk : Bool
  waitAddOk : Bool
  powerOn2Ok : Bool
  polls2 : List PollEvent
  reconfigEditOk : Bool
  waitEditOk : Bool
  deleteOk : Bool

/-- Embeds Go `vmCreateHandler` (main.go:122-425) over an `Env` of call
results.  Faithful control-flow notes:
* the five early lookups (datacenter main.go:137, VM main.go:145 on a
  non-NotFound error, folders main.go:158, folder main.go:166, resource pool
  main.go:172) print the error and `return` — only this worker ends;
* every later error check is `log.Fatalf`;
* an existing VM (main.go:153-156) logs and returns — the skip path;
* `data.Macaddress == ""` (no vmxnet3 device labelled "Network adapter 1",
  or an empty MAC) is `log.Fatalf` (main.go:293-295);
* cancellation or a read error inside `waitForIP` surfaces as a non-nil
  error and is `log.Fatalf` (main.go:312-316, 394-398);
* `finder.Network(ctx, vmParam.Networks[0])` (main.go:318) has its error
  discarded; on failure the nil result is dereferenced — a panic;
* `EthernetCardBackingInfo` (main.go:319) stores its error in `err` without
  an immediate check.  With `changemac` set, `err` is overwritten at
  main.go:323 — the failure is silently ignored.  Without `changemac`, the
  stale `err` is only tested at main.go:410, after the Reconfigure call has
  already been issued — so the failure is fatal, but late;
* `newVM.Reconfigure` (main.go:352, 375, 409) discards its error
  (`task, _ =`); on failure `task` is nil and `task.WaitForResult` panics;
* the second power-on (main.go:388) has no `WaitForResult`. -/
def vmCreateHandler (e : Env) : Outcome × List Call :=
  if e.connectOk then
    if e.dcOk then
      match e.findVM with
      | .found => (.skip, [.connect, .dcLookup, .vmLookup])
      | .lookupErr => (.workerReturn, [.connect, .dcLookup, .vmLookup])
      | .notFound =>
        let t3 : List Call := [.connect, .dcLookup, .vmLookup]
        if e.foldersOk then
          if e.folderOk then
            if e.rpOk then
              let t6 := t3 ++ [.foldersLookup, .folderLookup, .rpLookup, .installerGetVersions]
              match decideGuestId e.httpGetOk e.decodeOk e.catalog e.isofilename with
              | .fatal => (.fatal, t6)
              | .ok _ =>
                let nets := netLoop e.netResults
                let t7 := t6 ++ nets.2
                if nets.1 then
                  if e.configSpecOk then
                    let t8 := t7 ++ [.buildConfigSpec, .createVM]
                    if e.createOk then
                      if e.waitCreateOk then
                        let t9 := t8 ++ [.waitTask, .readProps]
                        if e.propsOk then
                          if e.bootMac = "" then (.fatal, t9)
                          else
                            let t10 := t9 ++ [.installerPost, .powerOn]
                            if e.postOk then
                              if e.powerOnOk then
                                if e.waitPowerOnOk then
                                  let t11 := t10 ++ [.waitTask, .pollGuestIP]
                                  match waitForIP e.targetIP e.polls1 with
                                  | .pending => (.hang, t11)
                                  | .cancelled => (.fatal, t11)
                                  | .failed => (.fatal, t11)
                                  | .success =>
                                    if e.finalNetOk then
                                      let t12 := t11 ++ [.netLookup, .backingLookup]
                                      if e.changemac then
                                        if e.shutdownOk then
                                          let t13 := t12 ++ [.shutdownGuest, .readPowerState]
                                          match powerLoop e.powerPolls with
                                          | .retrieveFailed => (.fatal, t13)
                                          | .hung => (.hang, t13)
                                          | .off =>
                                            let t14 := t13 ++ [.reconfigure]
                                            if e.reconfigRemoveOk then
                                              if e.waitRemoveOk then
                                                let t15 := t14 ++ [.waitTask, .reconfigure]
                                                if e.reconfigAddOk then
                                                  if e.waitAddOk then
                                                    let t16 := t15 ++ [.waitTask, .powerOn]
                                                    if e.powerOn2Ok then
                                                      let t17 := t16 ++ [.pollGuestIP]
                                                      match waitForIP e.targetIP e.polls2 with
                                                      | .pending => (.hang, t17)
                                                      | .cancelled => (.fatal, t17)
                                                      | .failed => (.fatal, t17)
                                                      | .success =>
                                                        if e.deleteOk then
                                                          (.done, t17 ++ [.installerDelete])
                                                        else (.fatal, t17 ++ [.installerDelete])
                                                    else (.fatal, t16)
                                                  else (.fatal, t15 ++ [.waitTask])
                                                else (.panicked, t15)
                                              else (.fatal, t14 ++ [.waitTask])
                                            else (.panicked, t14)
                                        else (.fatal, t12 ++ [.shutdownGuest])
                                      else
                                        let t14 := t12 ++ [.reconfigure]
                                        if e.finalBackingOk then
                                          if e.reconfigEditOk then
                                            if e.waitEditOk then
                                              if e.deleteOk then
                                                (.done, t14 ++ [.waitTask, .installerDelete])
                                              else (.fatal, t14 ++ [.waitTask, .installerDelete])
                                            else (.fatal, t14 ++ [.waitTask])
                                          else (.panicked, t14)
                                        else (.fatal, t14)
                                    else (.panicked, t11 ++ [.netLookup])
                                else (.fatal, t10 ++ [.waitTask])
                              else (.fatal, t10)
                            else (.fatal, t9 ++ [.installerPost])
                        else (.fatal, t9)
                      else (.fatal, t8 ++ [.waitTask])
                    else (.fatal, t8)
                  else (.fatal, t7 ++ [.buildConfigSpec])
                else (.fatal, t7)
            else (.workerReturn, t3 ++ [.foldersLookup, .folderLookup, .rpLookup])
          else (.workerReturn, t3 ++ [.foldersLookup, .folderLookup])
        else (.workerReturn, t3 ++ [.foldersLookup])
    else (.workerReturn, [.connect, .dcLookup])
  else (.fatal, [.connect])

/-- An environment in which every call succeeds: the VM is absent, the ISO
is catalogued, one configured network resolves, the guest reports the target
address on the first poll, and `changemac` is off. -/
def envBase : Env where
  changemac := false
  isofilename := "esxi8.iso"
  targetIP := "10.0.0.50"
  connectOk := true
  dcOk := true
  findVM := .notFound
  foldersOk := true
  folderOk := true
  rpOk := true
  httpGetOk := true
  decodeOk := true
  catalog := [("esxi8.iso", "8.0.0")]
  netResults := [(true, true)]
  configSpecOk := true
  createOk := true
  waitCreateOk := true
  propsOk := true
  bootMac := "00:50:56:aa:bb:cc"
  postOk := true
  powerOnOk := true
  waitPowerOnOk := true
  polls1 := [PollEvent.read "10.0.0.50"]
  finalNetOk := true
  finalBackingOk := true
  shutdownOk := true
  powerPolls := [PowerPoll.poweredOff]
  reconfigRemoveOk := true
  waitRemoveOk := true
  reconfigAddOk := true
  waitAddOk := true
  powerOn2Ok := true
  polls2 := [PollEvent.read "10.0.0.50"]
  reconfigEditOk := true
  waitEditOk := true
  deleteOk := true

/-- Success conditions for the worker's early resolution phase (through the
resource-pool lookup), with the VM absent. -/
def earlyOk (e : Env) : Prop :=
  e.connectOk = true ∧ e.dcOk = true ∧ e.findVM = .notFound ∧
  e.foldersOk = true ∧ e.folderOk = true ∧ e.rpOk = true

/-- Success of guest-identifier resolution. -/
def guestIdOk (e : Env) : Prop :=
  ∃ g, decideGuestId e.httpGetOk e.decodeOk e.catalog e.isofilename = .ok g

/-- Success conditions from the start of the worker through the first
guest-IP wait and the final-network lookup. -/
def midOk (e : Env) : Prop :=
  earlyOk e ∧ guestIdOk e ∧ (netLoop e.netResults).1 = true ∧
  e.configSpecOk = true ∧ e.createOk = true ∧ e.waitCreateOk = true ∧
  e.propsOk = true ∧ e.bootMac ≠ "" ∧ e.postOk = true ∧
  e.powerOnOk = true ∧ e.waitPowerOnOk = true ∧
  waitForIP e.targetIP e.polls1 = .success ∧ e.finalNetOk = true

/-- Success conditions for the whole MAC-separation tail (shutdown through
deregistration). -/
def tailChangemacOk (e : Env) : Prop :=
  e.shutdownOk = true ∧ powerLoop e.powerPolls = .off ∧
  e.reconfigRemoveOk = true ∧ e.waitRemoveOk = true ∧
  e.reconfigAddOk = true ∧ e.waitAddOk = true ∧ e.powerOn2Ok = true ∧
  waitForIP e.targetIP e.polls2 = .success ∧ e.deleteOk = true

/-- Success conditions through device-list construction and the ConfigSpec
build. -/
def resolveOk (e : Env) : Prop :=
  earlyOk e ∧ guestIdOk e ∧ (netLoop e.netResults).1 = true ∧ e.configSpecOk = true

/-- Success conditions through creation, MAC discovery and installer
registration. -/
def postedOk (e : Env) : Prop :=
  resolveOk e ∧ e.createOk = true ∧ e.waitCreateOk = true ∧ e.propsOk = true ∧
  e.bootMac ≠ "" ∧ e.postOk = true

/-- Success conditions through the guest shutdown and power-off poll of the
MAC-separation branch. -/
def cmPreOk (e : Env) : Prop :=
  midOk e ∧ e.changemac = true ∧ e.shutdownOk = true ∧
  powerLoop e.powerPolls = .off

/-! ## Helper lemmas -/

theorem goSplit_ne_nil (sep : Char) : ∀ s : List Char, goSplit sep s ≠ [] := by
  intro s
  cases s with
  | nil => simp [goSplit]
  | cons c cs =>
    simp only [goSplit]
    cases goSplit sep cs with
    | nil => simp
    | cons p ps =>
      by_cases hc : c = sep <;> simp [hc]

theorem goSplit_of_not_mem (sep : Char) :
    ∀ s : List Char, sep ∉ s → goSplit sep s = [s] := by
  intro s
  induction s with
  | nil => intro _; rfl
  | cons c cs ih =>
    intro h
    have hc : ¬ c = sep := fun hcs => h (hcs ▸ List.mem_cons_self c cs)
    have hcs : sep ∉ cs := fun hm => h (List.mem_cons_of_mem c hm)
    simp only [goSplit, ih hcs]
    simp [hc]

theorem goSplit_append (sep : Char) :
    ∀ (a b : List Char), sep ∉ a →
      goSplit sep (a ++ sep :: b) = a :: goSplit sep b := by
  intro a
  induction a with
  | nil =>
    intro b _
    simp only [List.nil_append, goSplit]
    cases hg : goSplit sep b with
    | nil => exact absurd hg (goSplit_ne_nil sep b)
    | cons p ps => simp
  | cons c cs ih =>
    intro b h
    have hc : ¬ c = sep := fun hcs => h (hcs ▸ List.mem_cons_self c cs)
    have hcs : sep ∉ cs := fun hm => h (List.mem_cons_of_mem c hm)
    simp only [List.cons_append, goSplit, List.append_eq]
    rw [ih b hcs]
    simp [hc]

theorem genNamesAux_eq (p : List Char) (w : Int) :
    ∀ (k : Nat) (j : Int),
      genNamesAux p w j k =
        (List.range k).map (fun (i : Nat) => p ++ zeroPadInt w (j + (i : Int))) := by
  intro k
  induction k with
  | zero => intro j; rfl
  | succ k ih =>
    intro j
    rw [genNamesAux, ih (j + 1), List.range_succ_eq_map]
    simp only [List.map_cons, List.map_map, Nat.cast_zero, add_zero]
    congr 1
    apply List.map_congr_left
    intro i _
    simp only [Function.comp_apply]
    congr 2
    push_cast
    ring

theorem foldl_lookup_absent (iso : String) :
    ∀ (catalog : List (String × String)) (acc : String),
      (∀ kv ∈ catalog, kv.1 ≠ iso) →
      List.foldl (fun acc kv => if kv.1 = iso then kv.2 else acc) acc catalog = acc := by
  intro catalog
  induction catalog with
  | nil => intro acc _; rfl
  | cons hd tl ih =>
    intro acc h
    rw [List.foldl_cons, if_neg (h hd (List.mem_cons_self hd tl))]
    exact ih acc (fun kv hkv => h kv (List.mem_cons_of_mem hd hkv))

theorem lookupVersion_of_absent (catalog : List (String × String)) (iso : String)
    (h : ∀ kv ∈ catalog, kv.1 ≠ iso) : lookupVersion catalog iso = "" :=
  foldl_lookup_absent iso catalog "" h

theorem waitForIP_success_elim (targetIP : String) :
    ∀ evs : List PollEvent, waitForIP targetIP evs = .success →
      ∃ pre post, evs = pre ++ PollEvent.read targetIP :: post ∧
        ∀ e ∈ pre, nonMatching targetIP e := by
  intro evs
  induction evs with
  | nil => intro h; simp [waitForIP] at h
  | cons e rest ih =>
    intro h
    cases e with
    | cancel => simp [waitForIP] at h
    | readErr => simp [waitForIP] at h
    | read ip =>
      by_cases hip : ip = targetIP
      · subst hip
        exact ⟨[], rest, rfl, by simp⟩
      · simp only [waitForIP, if_neg hip] at h
        obtain ⟨pre, post, heq, hpre⟩ := ih h
        refine ⟨PollEvent.read ip :: pre, post, by simp [heq], ?_⟩
        intro x hx
        rcases List.mem_cons.mp hx with hx | hx
        · exact ⟨ip, hx, hip⟩
        · exact hpre x hx

theorem waitForIP_success_intro (targetIP : String) :
    ∀ (pre post : List PollEvent), (∀ e ∈ pre, nonMatching targetIP e) →
      waitForIP targetIP (pre ++ PollEvent.read targetIP :: post) = .success := by
  intro pre
  induction pre with
  | nil => intro post _; simp [waitForIP]
  | cons p ps ih =>
    intro post h
    obtain ⟨ip, hp, hne⟩ := h p (List.mem_cons_self p ps)
    subst hp
    simp only [List.cons_append, waitForIP, if_neg hne]
    exact ih post (fun e he => h e (List.mem_cons_of_mem _ he))

theorem waitForIP_cancelled_intro (targetIP : String) :
    ∀ (pre post : List PollEvent), (∀ e ∈ pre, nonMatching targetIP e) →
      waitForIP targetIP (pre ++ PollEvent.cancel :: post) = .cancelled := by
  intro pre
  induction pre with
  | nil => intro post _; simp [waitForIP]
  | cons p ps ih =>
    intro post h
    obtain ⟨ip, hp, hne⟩ := h p (List.mem_cons_self p ps)
    subst hp
    simp only [List.cons_append, waitForIP, if_neg hne]
    exact ih post (fun e he => h e (List.mem_cons_of_mem _ he))

theorem waitForIP_pending_intro (targetIP : String) :
    ∀ evs : List PollEvent, (∀ e ∈ evs, nonMatching targetIP e) →
      waitForIP targetIP evs = .pending := by
  intro evs
  induction evs with
  | nil => intro _; rfl
  | cons p ps ih =>
    intro h
    obtain ⟨ip, hp, hne⟩ := h p (List.mem_cons_self p ps)
    subst hp
    simp only [waitForIP, if_neg hne]
    exact ih (fun e he => h e (List.mem_cons_of_mem _ he))

theorem diskUnits_append (l1 l2 : List Device) :
    diskUnits (l1 ++ l2) = diskUnits l1 ++ diskUnits l2 := by
  simp [diskUnits]

theorem diskUnits_createVirtualDisk (i : Nat) (devices : List Device)
    (cap : Int) (vm : String) (key : Int) (ds : String) :
    diskUnits (createVirtualDisk i devices cap vm key ds) =
      diskUnits devices ++ [if 7 ≤ i then i + 1 else i] := by
  simp [createVirtualDisk, diskUnits]

theorem diskUnits_addDisks (vm : String) (key : Int) :
    ∀ (ss : List (String × Int)) (i : Nat) (devices : List Device),
      diskUnits (addDisks vm key i ss devices) =
        diskUnits devices ++
          (List.range ss.length).map
            (fun k => if 7 ≤ i + k then i + k + 1 else i + k) := by
  intro ss
  induction ss with
  | nil => intro i devices; simp [addDisks]
  | cons hd tl ih =>
    intro i devices
    obtain ⟨ds, cap⟩ := hd
    rw [addDisks, ih (i + 1), diskUnits_createVirtualDisk, List.length_cons,
      List.range_succ_eq_map]
    simp only [List.map_cons, List.map_map, List.append_assoc,
      List.cons_append, List.nil_append, Nat.add_zero]
    congr 2
    apply List.map_congr_left
    intro k _
    simp only [Function.comp_apply, Nat.succ_eq_add_one]
    have hk : i + 1 + k = i + (k + 1) := by omega
    rw [hk]

/-! ## Claims -/

/-- C10: when the start address, the netmask and the gateway all fail to
parse (`net.ParseIP` yields `nil`, embedded `[]`), both masked values are the
same empty value and `validateNetworkAddr` succeeds instead of rejecting the
configuration. -/
theorem validateNetworkAddr_unparsable_success :
    validateNetworkAddr [] [] [] = .ok () := rfl

/-- C5: for parsed IPv4 inputs, `validateNetworkAddr` succeeds exactly when
gateway AND netmask equals startAddress AND netmask, and reports the
subnet-mismatch error otherwise. -/
theorem validateNetworkAddr_subnet_check :
    ∀ s0 s1 s2 s3 m0 m1 m2 m3 g0 g1 g2 g3 : Nat,
      (validateNetworkAddr [s0, s1, s2, s3] [m0, m1, m2, m3] [g0, g1, g2, g3] = .ok () ↔
        [Nat.land g0 m0, Nat.land g1 m1, Nat.land g2 m2, Nat.land g3 m3] =
          [Nat.land s0 m0, Nat.land s1 m1, Nat.land s2 m2, Nat.land s3 m3]) ∧
      ([Nat.land g0 m0, Nat.land g1 m1, Nat.land g2 m2, Nat.land g3 m3] ≠
          [Nat.land s0 m0, Nat.land s1 m1, Nat.land s2 m2, Nat.land s3 m3] →
        validateNetworkAddr [s0, s1, s2, s3] [m0, m1, m2, m3] [g0, g1, g2, g3] =
          .error "Gateway and ESXi IP are not on same subnet.") := by
  intro s0 s1 s2 s3 m0 m1 m2 m3 g0 g1 g2 g3
  have hz : validateNetworkAddr [s0, s1, s2, s3] [m0, m1, m2, m3] [g0, g1, g2, g3] =
      if [Nat.land g0 m0, Nat.land g1 m1, Nat.land g2 m2, Nat.land g3 m3] =
         [Nat.land s0 m0, Nat.land s1 m1, Nat.land s2 m2, Nat.land s3 m3]
      then .ok () else .error "Gateway and ESXi IP are not on same subnet." := by
    simp [validateNetworkAddr, goMask]
  constructor
  · rw [hz]
    split_ifs with h
    · simp [h]
    · simp [h]
  · intro hne
    rw [hz, if_neg hne]

/-- C5 witness: start `10.0.0.10`, netmask `255.255.255.0`: gateway
`10.0.0.1` passes, gateway `10.0.1.1` is rejected with the subnet error. -/
theorem validateNetworkAddr_subnet_check_witness :
    validateNetworkAddr [10, 0, 0, 10] [255, 255, 255, 0] [10, 0, 0, 1] = .ok () ∧
    validateNetworkAddr [10, 0, 0, 10] [255, 255, 255, 0] [10, 0, 1, 1] =
      .error "Gateway and ESXi IP are not on same subnet." := by
  constructor
  · exact (validateNetworkAddr_subnet_check 10 0 0 10 255 255 255 0 10 0 0 1).1.mpr
      (by decide)
  · exact (validateNetworkAddr_subnet_check 10 0 0 10 255 255 255 0 10 0 1 1).2
      (by decide)

/-- C4: the address for replica index `i` is the start address with only the
last octet changed, to `(d + i) % 256` — Go byte arithmetic wraps silently
past 255 (`allocIP` is total: no rejection path exists in the code). -/
theorem allocIP_last_octet_mod256 :
    ∀ a b c d i : Nat, d < 256 →
      allocIP [a, b, c, d] i = [a, b, c, (d + i) % 256] := by
  intro a b c d i _
  simp only [allocIP, List.set, List.getD, List.get?]
  norm_num [Nat.add_mod_mod]

/-- C4 witness: start `10.0.0.250`, replica index 10 wraps to `10.0.0.4`. -/
theorem allocIP_last_octet_mod256_witness :
    allocIP [10, 0, 0, 250] 10 = [10, 0, 0, 4] := by
  have h := allocIP_last_octet_mod256 10 0 0 250 10 (by norm_num)
  simpa using h

/-- C3 counterexample: at storage index 8 the code assigns unit number 9
(`i >= 7` bumps every index from 7 on), while the claim's rule — bump only
when the index equals 7 — assigns 8. -/
theorem createVirtualDisk_unit_bump_at_eight :
    specUnitNumber 8 = 8 ∧
    (diskUnits (buildStorageDevices
        [("a", 1), ("b", 1), ("c", 1), ("d", 1), ("e", 1), ("f", 1), ("g", 1),
         ("h", 1), ("i", 1)] "esxi001")).getD 8 0 = 9 ∧
    (9 : Nat) ≠ 8 := by
  refine ⟨rfl, ?_, by decide⟩
  rfl

/-- C3 (amended): disk `i` gets unit number `i`, bumped by one whenever the
index is greater than or equal to the reserved controller unit number 7; 8
storages yield unit numbers `0,1,2,3,4,5,6,8`; no disk ever gets unit 7. -/
theorem createVirtualDisk_unit_numbers :
    (∀ (storages : List (String × Int)) (vmName : String),
        diskUnits (buildStorageDevices storages vmName) =
          (List.range storages.length).map (fun i => if 7 ≤ i then i + 1 else i)) ∧
    (∀ (storages : List (String × Int)) (vmName : String),
        storages.length = 8 →
        diskUnits (buildStorageDevices storages vmName) = [0, 1, 2, 3, 4, 5, 6, 8]) ∧
    (∀ (storages : List (String × Int)) (vmName : String) (u : Nat),
        u ∈ diskUnits (buildStorageDevices storages vmName) → u ≠ 7) := by
  have h1 : ∀ (storages : List (String × Int)) (vmName : String),
      diskUnits (buildStorageDevices storages vmName) =
        (List.range storages.length).map (fun i => if 7 ≤ i then i + 1 else i) := by
    intro storages vmName
    rw [buildStorageDevices, createScsiController, diskUnits_addDisks]
    simp [diskUnits]
  refine ⟨h1, ?_, ?_⟩
  · intro storages vmName hlen
    rw [h1, hlen]
    decide
  · intro storages vmName u hu
    rw [h1] at hu
    obtain ⟨i, _, hui⟩ := List.mem_map.mp hu
    by_cases h7 : 7 ≤ i <;> simp [h7] at hui <;> omega

/-- C3 witness: eight storages produce exactly the units `0,1,2,3,4,5,6,8`,
none of them 7. -/
theorem createVirtualDisk_unit_numbers_witness :
    diskUnits (buildStorageDevices
      [("a", 1), ("b", 1), ("c", 1), ("d", 1), ("e", 1), ("f", 1), ("g", 1),
       ("h", 1)] "esxi001") = [0, 1, 2, 3, 4, 5, 6, 8] ∧
    (7 : Nat) ∉ diskUnits (buildStorageDevices
      [("a", 1), ("b", 1), ("c", 1), ("d", 1), ("e", 1), ("f", 1), ("g", 1),
       ("h", 1)] "esxi001") := by
  constructor
  · exact createVirtualDisk_unit_numbers.2.1 _ _ (by decide)
  · intro hmem
    exact createVirtualDisk_unit_numbers.2.2 _ _ 7 hmem rfl

/-- C7 counterexample: a filename that is present in the catalog but mapped
to the empty version string is treated like an absent filename — a fatal
error, not the newest-generation identifier the claim promises for "any
other version present". -/
theorem decideGuestId_empty_version_fatal :
    decideGuestId true true [("a.iso", "")] "a.iso" = .fatal ∧
    ("a.iso", "") ∈ [("a.iso", "")] ∧
    ("" : String) ≠ "6.0.0" ∧ ("" : String) ≠ "6.5.0" ∧ ("" : String) ≠ "6.7.0" ∧
    GuestIdRes.fatal ≠ .ok "vmkernel7Guest" := by
  refine ⟨rfl, by simp, by decide, by decide, by decide, by simp⟩

/-- C7 (amended): with the HTTP fetch and decode succeeding, version
`"6.0.0"` maps to `vmkernel6Guest`, versions `"6.5.0"`/`"6.7.0"` to
`vmkernel65Guest`, any other non-empty version to `vmkernel7Guest`; a
filename absent from the catalog (or present with the empty version, which
the code cannot distinguish from absence) is a fatal configuration error. -/
theorem decideGuestId_version_map :
    (∀ (catalog : List (String × String)) (iso : String),
        lookupVersion catalog iso = "6.0.0" →
        decideGuestId true true catalog iso = .ok "vmkernel6Guest") ∧
    (∀ (catalog : List (String × String)) (iso : String),
        lookupVersion catalog iso = "6.5.0" ∨ lookupVersion catalog iso = "6.7.0" →
        decideGuestId true true catalog iso = .ok "vmkernel65Guest") ∧
    (∀ (catalog : List (String × String)) (iso : String),
        lookupVersion catalog iso ≠ "" → lookupVersion catalog iso ≠ "6.0.0" →
        lookupVersion catalog iso ≠ "6.5.0" → lookupVersion catalog iso ≠ "6.7.0" →
        decideGuestId true true catalog iso = .ok "vmkernel7Guest") ∧
    (∀ (catalog : List (String × String)) (iso : String),
        (∀ kv ∈ catalog, kv.1 ≠ iso) →
        decideGuestId true true catalog iso = .fatal) := by
  refine ⟨?_, ?_, ?_, ?_⟩
  · intro catalog iso h
    simp [decideGuestId, h]
  · intro catalog iso h
    rcases h with h | h <;> simp [decideGuestId, h]
  · intro catalog iso h0 h1 h2 h3
    simp [decideGuestId, h0, h1, h2, h3]
  · intro catalog iso h
    simp [decideGuestId, lookupVersion_of_absent catalog iso h]

/-- C7 witness: concrete catalogs exercising all four outcomes. -/
theorem decideGuestId_version_map_witness :
    decideGuestId true true [("a.iso", "6.0.0")] "a.iso" = .ok "vmkernel6Guest" ∧
    decideGuestId true true [("b.iso", "6.7.0")] "b.iso" = .ok "vmkernel65Guest" ∧
    decideGuestId true true [("c.iso", "8.0.0")] "c.iso" = .ok "vmkernel7Guest" ∧
    decideGuestId true true [("d.iso", "7.0.0")] "x.iso" = .fatal := by
  refine ⟨?_, ?_, ?_, ?_⟩
  · exact decideGuestId_version_map.1 _ _ (by decide)
  · exact decideGuestId_version_map.2.1 _ _ (Or.inr (by decide))
  · exact decideGuestId_version_map.2.2.1 _ _ (by decide) (by decide) (by decide)
      (by decide)
  · exact decideGuestId_version_map.2.2.2 _ _ (by decide)

/-- C8: the guest-IP wait loop succeeds exactly when some poll reads the
target address (all earlier polls being non-matching reads); a cancellation
before any match ends it with the cancellation error; and a script of
non-matching reads of any length leaves it still polling — there is no
retry bound. -/
theorem waitForIP_poll_semantics :
    (∀ (targetIP : String) (evs : List PollEvent),
        waitForIP targetIP evs = .success ↔
          ∃ pre post, evs = pre ++ PollEvent.read targetIP :: post ∧
            ∀ e ∈ pre, nonMatching targetIP e) ∧
    (∀ (targetIP : String) (pre post : List PollEvent),
        (∀ e ∈ pre, nonMatching targetIP e) →
        waitForIP targetIP (pre ++ PollEvent.cancel :: post) = .cancelled) ∧
    (∀ (targetIP : String) (evs : List PollEvent),
        (∀ e ∈ evs, nonMatching targetIP e) → waitForIP targetIP evs = .pending) := by
  refine ⟨?_, waitForIP_cancelled_intro, waitForIP_pending_intro⟩
  intro targetIP evs
  constructor
  · exact waitForIP_success_elim targetIP evs
  · rintro ⟨pre, post, rfl, hpre⟩
    exact waitForIP_success_intro targetIP pre post hpre

/-- C8 witness: one non-matching read followed by a match succeeds; followed
by a cancellation it is cancelled; two non-matching reads keep polling. -/
theorem waitForIP_poll_semantics_witness :
    waitForIP "10.0.0.50" [PollEvent.read "null", PollEvent.read "10.0.0.50"] =
      .success ∧
    waitForIP "10.0.0.50" [PollEvent.read "null", PollEvent.cancel] = .cancelled ∧
    waitForIP "10.0.0.50" [PollEvent.read "null", PollEvent.read "10.0.0.7"] =
      .pending := by
  have hnm : nonMatching "10.0.0.50" (PollEvent.read "null") :=
    ⟨"null", rfl, by decide⟩
  refine ⟨?_, ?_, ?_⟩
  · refine (waitForIP_poll_semantics.1 _ _).mpr
      ⟨[PollEvent.read "null"], [], rfl, ?_⟩
    intro e he
    simp only [List.mem_singleton] at he
    exact he ▸ hnm
  · refine waitForIP_poll_semantics.2.1 _ [PollEvent.read "null"] [] ?_
    intro e he
    simp only [List.mem_singleton] at he
    exact he ▸ hnm
  · refine waitForIP_poll_semantics.2.2 _ _ ?_
    intro e he
    rcases List.mem_cons.mp he with rfl | he
    · exact hnm
    · simp only [List.mem_singleton] at he
      exact he ▸ ⟨"10.0.0.7", rfl, by decide⟩

/-- C9: on a template with no brace group the code crashes with an
out-of-range index (an uncontrolled panic), not a reported ConfigError;
the non-integer start and non-integer fixed values, by contrast, do take
the reported-fatal paths. -/
theorem calcurateNamePart_missing_group_crash :
    calcurateNamePart (String.toList "esxi") = .crashIdx ∧
    calcurateNamePart (String.toList "esxi{x}") = .badStart ∧
    calcurateNamePart (String.toList "esxi{1,fixed=x}") = .badFixed ∧
    NameCalc.crashIdx ≠ .badStart ∧ NameCalc.crashIdx ≠ .badFixed := by
  refine ⟨rfl, rfl, rfl, by decide, by decide⟩


theorem not_mem_cons_of {c x : Char} {l : List Char} (h1 : c ≠ x) (h2 : c ∉ l) :
    c ∉ x :: l := by
  intro hm
  rcases List.mem_cons.mp hm with h | h
  · exact h1 h
  · exact h2 h

theorem not_mem_append_of {c : Char} {a b : List Char} (h1 : c ∉ a) (h2 : c ∉ b) :
    c ∉ a ++ b :=
  fun hm => (List.mem_append.mp hm).elim h1 h2

/-- C6: for a well-formed template — `pre{start}` or `pre{start,fixed=w}`,
the brace-delimited fields parsing as integers — replica `i` (0-based) is
named `pre` followed by `start + i` zero-padded to the given width (width 0
when no `fixed=` clause is present), and `esxi{1,fixed=3}` with replica 3
yields exactly `esxi001`, `esxi002`, `esxi003` in order.  (`main` then
appends `"." ++ domain` to form the FQDN, see `mainHostnames`.) -/
theorem generatedNames_formula :
    (∀ (p ds : List Char) (start : Int) (replica : Nat),
        '{' ∉ p → '{' ∉ ds → '}' ∉ ds → ',' ∉ ds →
        goAtoi ds = some start →
        generatedNames (p ++ '{' :: (ds ++ ['}'])) replica =
          some ((List.range replica).map
            (fun (i : Nat) => p ++ zeroPadInt 0 (start + (i : Int))))) ∧
    (∀ (p ds ws : List Char) (start w : Int) (replica : Nat),
        '{' ∉ p → '{' ∉ ds → '}' ∉ ds → ',' ∉ ds →
        '{' ∉ ws → '}' ∉ ws → ',' ∉ ws → '=' ∉ ws →
        goAtoi ds = some start → goAtoi ws = some w →
        generatedNames
          (p ++ '{' :: ((ds ++ ',' :: ('f' :: 'i' :: 'x' :: 'e' :: 'd' :: '=' :: ws)) ++ ['}']))
          replica =
          some ((List.range replica).map
            (fun (i : Nat) => p ++ zeroPadInt w (start + (i : Int))))) ∧
    generatedNames (String.toList "esxi{1,fixed=3}") 3 =
      some [String.toList "esxi001", String.toList "esxi002", String.toList "esxi003"] := by
  have h8 : goSplit '}' ([] : List Char) = [[]] := rfl
  refine ⟨?_, ?_, ?_⟩
  · intro p ds start replica hp hds1 hds2 hds3 hatoi
    have hq : '{' ∉ ds ++ ['}'] :=
      not_mem_append_of hds1 (not_mem_cons_of (by decide) (by simp))
    have h1 : goSplit '{' (p ++ '{' :: (ds ++ ['}'])) =
        p :: goSplit '{' (ds ++ ['}']) := goSplit_append '{' p _ hp
    have h2 : goSplit '{' (ds ++ ['}']) = [ds ++ ['}']] :=
      goSplit_of_not_mem '{' _ hq
    have h3 : goSplit '}' (ds ++ ['}']) = ds :: goSplit '}' [] :=
      goSplit_append '}' ds [] hds2
    have h4 : goSplit ',' ds = [ds] := goSplit_of_not_mem ',' ds hds3
    simp only [generatedNames, calcurateNamePart, h1, h2, h3, h4, h8,
      List.headD, hatoi, genNamesAux_eq]
  · intro p ds ws start w replica hp hds1 hds2 hds3 hws1 hws2 hws3 hws4 hds hws
    have hFq : '}' ∉ ds ++ ',' :: ('f' :: 'i' :: 'x' :: 'e' :: 'd' :: '=' :: ws) :=
      not_mem_append_of hds2 (not_mem_cons_of (by decide) (not_mem_cons_of (by decide)
        (not_mem_cons_of (by decide) (not_mem_cons_of (by decide)
        (not_mem_cons_of (by decide) (not_mem_cons_of (by decide)
        (not_mem_cons_of (by decide) hws2)))))))
    have hq : '{' ∉ (ds ++ ',' :: ('f' :: 'i' :: 'x' :: 'e' :: 'd' :: '=' :: ws)) ++ ['}'] :=
      not_mem_append_of
        (not_mem_append_of hds1 (not_mem_cons_of (by decide) (not_mem_cons_of (by decide)
          (not_mem_cons_of (by decide) (not_mem_cons_of (by decide)
          (not_mem_cons_of (by decide) (not_mem_cons_of (by decide)
          (not_mem_cons_of (by decide) hws1))))))))
        (not_mem_cons_of (by decide) (by simp))
    have hwsF : ',' ∉ 'f' :: 'i' :: 'x' :: 'e' :: 'd' :: '=' :: ws :=
      not_mem_cons_of (by decide) (not_mem_cons_of (by decide)
        (not_mem_cons_of (by decide) (not_mem_cons_of (by decide)
        (not_mem_cons_of (by decide) (not_mem_cons_of (by decide) hws3)))))
    have h1 : goSplit '{'
        (p ++ '{' :: ((ds ++ ',' :: ('f' :: 'i' :: 'x' :: 'e' :: 'd' :: '=' :: ws)) ++ ['}'])) =
        p :: goSplit '{' ((ds ++ ',' :: ('f' :: 'i' :: 'x' :: 'e' :: 'd' :: '=' :: ws)) ++ ['}']) :=
      goSplit_append '{' p _ hp
    have h2 : goSplit '{' ((ds ++ ',' :: ('f' :: 'i' :: 'x' :: 'e' :: 'd' :: '=' :: ws)) ++ ['}']) =
        [(ds ++ ',' :: ('f' :: 'i' :: 'x' :: 'e' :: 'd' :: '=' :: ws)) ++ ['}']] :=
      goSplit_of_not_mem '{' _ hq
    have h3 : goSplit '}' ((ds ++ ',' :: ('f' :: 'i' :: 'x' :: 'e' :: 'd' :: '=' :: ws)) ++ ['}']) =
        (ds ++ ',' :: ('f' :: 'i' :: 'x' :: 'e' :: 'd' :: '=' :: ws)) :: goSplit '}' [] :=
      goSplit_append '}' _ [] hFq
    have h4 : goSplit ',' (ds ++ ',' :: ('f' :: 'i' :: 'x' :: 'e' :: 'd' :: '=' :: ws)) =
        ds :: goSplit ',' ('f' :: 'i' :: 'x' :: 'e' :: 'd' :: '=' :: ws) :=
      goSplit_append ',' ds _ hds3
    have h5 : goSplit ',' ('f' :: 'i' :: 'x' :: 'e' :: 'd' :: '=' :: ws) =
        ['f' :: 'i' :: 'x' :: 'e' :: 'd' :: '=' :: ws] :=
      goSplit_of_not_mem ',' _ hwsF
    have h6 : goSplit '=' ('f' :: 'i' :: 'x' :: 'e' :: 'd' :: '=' :: ws) =
        ['f', 'i', 'x', 'e', 'd'] :: goSplit '=' ws := by
      have hFshape : ('f' :: 'i' :: 'x' :: 'e' :: 'd' :: '=' :: ws : List Char) =
          ['f', 'i', 'x', 'e', 'd'] ++ '=' :: ws := rfl
      rw [hFshape]
      exact goSplit_append '=' _ ws (by decide)
    have h7 : goSplit '=' ws = [ws] := goSplit_of_not_mem '=' ws hws4
    simp only [generatedNames, calcurateNamePart, h1, h2, h3, h4, h5, h6, h7, h8,
      List.headD, hds, hws, genNamesAux_eq]
  · rfl

/-- C6 witness: the `esxi{1,fixed=3}` template in the template shape of the
general statement, with every hypothesis discharged concretely. -/
theorem generatedNames_formula_witness :
    generatedNames
      (String.toList "esxi" ++ '{' :: ((['1'] ++ ',' :: ('f' :: 'i' :: 'x' :: 'e' :: 'd' :: '=' :: ['3'])) ++ ['}']))
      3 =
      some ((List.range 3).map
        (fun (i : Nat) => String.toList "esxi" ++ zeroPadInt 3 (1 + (i : Int)))) :=
  generatedNames_formula.2.1 (String.toList "esxi") ['1'] ['3'] 1 3 3
    (by decide) (by decide) (by decide) (by decide) (by decide) (by decide)
    (by decide) (by decide) (by decide) (by decide)

/-- C1: when the backend reports the hostname as already existing, the
worker terminates as a successful skip after only the connect, datacenter
and VM lookups — no creation, power, reconfiguration, shutdown or installer
call is made, so the existing VM is left untouched. -/
theorem vmCreateHandler_existing_host_skips :
    ∀ e : Env, e.connectOk = true → e.dcOk = true → e.findVM = .found →
      vmCreateHandler e = (.skip, [.connect, .dcLookup, .vmLookup]) ∧
      Call.createVM ∉ (vmCreateHandler e).2 ∧
      Call.powerOn ∉ (vmCreateHandler e).2 ∧
      Call.reconfigure ∉ (vmCreateHandler e).2 ∧
      Call.shutdownGuest ∉ (vmCreateHandler e).2 ∧
      Call.installerGetVersions ∉ (vmCreateHandler e).2 ∧
      Call.installerPost ∉ (vmCreateHandler e).2 ∧
      Call.installerDelete ∉ (vmCreateHandler e).2 := by
  intro e h1 h2 h3
  have hrun : vmCreateHandler e = (.skip, [.connect, .dcLookup, .vmLookup]) := by
    simp [vmCreateHandler, h1, h2, h3]
  refine ⟨hrun, ?_, ?_, ?_, ?_, ?_, ?_, ?_⟩ <;> rw [hrun] <;> decide

/-- C1 witness: the all-success environment with the VM reported existing. -/
theorem vmCreateHandler_existing_host_skips_witness :
    vmCreateHandler {envBase with findVM := VMLookup.found} =
      (.skip, [.connect, .dcLookup, .vmLookup]) ∧
    Call.createVM ∉ (vmCreateHandler {envBase with findVM := VMLookup.found}).2 ∧
    Call.powerOn ∉ (vmCreateHandler {envBase with findVM := VMLookup.found}).2 ∧
    Call.reconfigure ∉ (vmCreateHandler {envBase with findVM := VMLookup.found}).2 ∧
    Call.shutdownGuest ∉ (vmCreateHandler {envBase with findVM := VMLookup.found}).2 ∧
    Call.installerGetVersions ∉ (vmCreateHandler {envBase with findVM := VMLookup.found}).2 ∧
    Call.installerPost ∉ (vmCreateHandler {envBase with findVM := VMLookup.found}).2 ∧
    Call.installerDelete ∉ (vmCreateHandler {envBase with findVM := VMLookup.found}).2 :=
  vmCreateHandler_existing_host_skips {envBase with findVM := VMLookup.found}
    rfl rfl rfl

/-- C2 counterexample: a failing datacenter lookup — a backend call — ends
only that host's worker (`fmt.Println` + `return`), not the whole process:
the outcome is `workerReturn`, not `fatal`, so the other workers continue. -/
theorem vmCreateHandler_datacenter_failure_not_fatal :
    (vmCreateHandler {envBase with dcOk := false}).1 = .workerReturn ∧
    (vmCreateHandler {envBase with dcOk := false}).2 = [.connect, .dcLookup] ∧
    Outcome.workerReturn ≠ .fatal := by
  refine ⟨rfl, rfl, by decide⟩

/-- C2 (amended): failures of the five early per-host lookups — datacenter,
VM lookup with a non-NotFound error, folders, folder, resource pool —
terminate only the failing host's worker and let the other workers continue;
every other backend or installer call failure either kills the whole process
via fatal logging (`fatal`) or crashes it with a nil-dereference panic
(`panicked`) — with one exception the code silently swallows: in
MAC-separation mode a failed `EthernetCardBackingInfo` on the final network
is ignored and the run completes (`done`). -/
theorem vmCreateHandler_failure_sites_classified :
    (∀ e : Env, e.connectOk = false → (vmCreateHandler e).1 = .fatal) ∧
    (∀ e : Env, e.connectOk = true → e.dcOk = false →
      (vmCreateHandler e).1 = .workerReturn) ∧
    (∀ e : Env, e.connectOk = true → e.dcOk = true → e.findVM = .lookupErr →
      (vmCreateHandler e).1 = .workerReturn) ∧
    (∀ e : Env, e.connectOk = true → e.dcOk = true → e.findVM = .notFound →
      e.foldersOk = false → (vmCreateHandler e).1 = .workerReturn) ∧
    (∀ e : Env, e.connectOk = true → e.dcOk = true → e.findVM = .notFound →
      e.foldersOk = true → e.folderOk = false →
      (vmCreateHandler e).1 = .workerReturn) ∧
    (∀ e : Env, e.connectOk = true → e.dcOk = true → e.findVM = .notFound →
      e.foldersOk = true → e.folderOk = true → e.rpOk = false →
      (vmCreateHandler e).1 = .workerReturn) ∧
    (∀ e : Env, earlyOk e →
      decideGuestId e.httpGetOk e.decodeOk e.catalog e.isofilename = .fatal →
      (vmCreateHandler e).1 = .fatal) ∧
    (∀ e : Env, earlyOk e → guestIdOk e → (netLoop e.netResults).1 = false →
      (vmCreateHandler e).1 = .fatal) ∧
    (∀ e : Env, earlyOk e → guestIdOk e → (netLoop e.netResults).1 = true →
      e.configSpecOk = false → (vmCreateHandler e).1 = .fatal) ∧
    (∀ e : Env, resolveOk e → e.createOk = false →
      (vmCreateHandler e).1 = .fatal) ∧
    (∀ e : Env, resolveOk e → e.createOk = true → e.waitCreateOk = false →
      (vmCreateHandler e).1 = .fatal) ∧
    (∀ e : Env, resolveOk e → e.createOk = true → e.waitCreateOk = true →
      e.propsOk = false → (vmCreateHandler e).1 = .fatal) ∧
    (∀ e : Env, resolveOk e → e.createOk = true → e.waitCreateOk = true →
      e.propsOk = true → e.bootMac = "" → (vmCreateHandler e).1 = .fatal) ∧
    (∀ e : Env, resolveOk e → e.createOk = true → e.waitCreateOk = true →
      e.propsOk = true → e.bootMac ≠ "" → e.postOk = false →
      (vmCreateHandler e).1 = .fatal) ∧
    (∀ e : Env, postedOk e → e.powerOnOk = false →
      (vmCreateHandler e).1 = .fatal) ∧
    (∀ e : Env, postedOk e → e.powerOnOk = true → e.waitPowerOnOk = false →
      (vmCreateHandler e).1 = .fatal) ∧
    (∀ e : Env, postedOk e → e.powerOnOk = true → e.waitPowerOnOk = true →
      waitForIP e.targetIP e.polls1 = .failed → (vmCreateHandler e).1 = .fatal) ∧
    (∀ e : Env, postedOk e → e.powerOnOk = true → e.waitPowerOnOk = true →
      waitForIP e.targetIP e.polls1 = .cancelled →
      (vmCreateHandler e).1 = .fatal) ∧
    (∀ e : Env, postedOk e → e.powerOnOk = true → e.waitPowerOnOk = true →
      waitForIP e.targetIP e.polls1 = .success → e.finalNetOk = false →
      (vmCreateHandler e).1 = .panicked) ∧
    (∀ e : Env, midOk e → e.changemac = false → e.finalBackingOk = false →
      (vmCreateHandler e).1 = .fatal) ∧
    (∀ e : Env, midOk e → e.changemac = false → e.finalBackingOk = true →
      e.reconfigEditOk = false → (vmCreateHandler e).1 = .panicked) ∧
    (∀ e : Env, midOk e → e.changemac = false → e.finalBackingOk = true →
      e.reconfigEditOk = true → e.waitEditOk = false →
      (vmCreateHandler e).1 = .fatal) ∧
    (∀ e : Env, midOk e → e.changemac = false → e.finalBackingOk = true →
      e.reconfigEditOk = true → e.waitEditOk = true → e.deleteOk = false →
      (vmCreateHandler e).1 = .fatal) ∧
    (∀ e : Env, midOk e → e.changemac = true → e.shutdownOk = false →
      (vmCreateHandler e).1 = .fatal) ∧
    (∀ e : Env, midOk e → e.changemac = true → e.shutdownOk = true →
      powerLoop e.powerPolls = .retrieveFailed →
      (vmCreateHandler e).1 = .fatal) ∧
    (∀ e : Env, cmPreOk e → e.reconfigRemoveOk = false →
      (vmCreateHandler e).1 = .panicked) ∧
    (∀ e : Env, cmPreOk e → e.reconfigRemoveOk = true → e.waitRemoveOk = false →
      (vmCreateHandler e).1 = .fatal) ∧
    (∀ e : Env, cmPreOk e → e.reconfigRemoveOk = true → e.waitRemoveOk = true →
      e.reconfigAddOk = false → (vmCreateHandler e).1 = .panicked) ∧
    (∀ e : Env, cmPreOk e → e.reconfigRemoveOk = true → e.waitRemoveOk = true →
      e.reconfigAddOk = true → e.waitAddOk = false →
      (vmCreateHandler e).1 = .fatal) ∧
    (∀ e : Env, cmPreOk e → e.reconfigRemoveOk = true → e.waitRemoveOk = true →
      e.reconfigAddOk = true → e.waitAddOk = true → e.powerOn2Ok = false →
      (vmCreateHandler e).1 = .fatal) ∧
    (∀ e : Env, cmPreOk e → e.reconfigRemoveOk = true → e.waitRemoveOk = true →
      e.reconfigAddOk = true → e.waitAddOk = true → e.powerOn2Ok = true →
      waitForIP e.targetIP e.polls2 = .failed → (vmCreateHandler e).1 = .fatal) ∧
    (∀ e : Env, cmPreOk e → e.reconfigRemoveOk = true → e.waitRemoveOk = true →
      e.reconfigAddOk = true → e.waitAddOk = true → e.powerOn2Ok = true →
      waitForIP e.targetIP e.polls2 = .cancelled →
      (vmCreateHandler e).1 = .fatal) ∧
    (∀ e : Env, cmPreOk e → e.reconfigRemoveOk = true → e.waitRemoveOk = true →
      e.reconfigAddOk = true → e.waitAddOk = true → e.powerOn2Ok = true →
      waitForIP e.targetIP e.polls2 = .success → e.deleteOk = false →
      (vmCreateHandler e).1 = .fatal) ∧
    (∀ e : Env, midOk e → e.changemac = true → e.finalBackingOk = false →
      tailChangemacOk e → (vmCreateHandler e).1 = .done) := by
  refine ⟨?_, ?_, ?_, ?_, ?_, ?_, ?_, ?_, ?_, ?_, ?_, ?_, ?_, ?_, ?_, ?_, ?_,
    ?_, ?_, ?_, ?_, ?_, ?_, ?_, ?_, ?_, ?_, ?_, ?_, ?_, ?_, ?_, ?_, ?_⟩
  · intro e h1
    simp [vmCreateHandler, h1]
  · intro e h1 h2
    simp [vmCreateHandler, h1, h2]
  · intro e h1 h2 h3
    simp [vmCreateHandler, h1, h2, h3]
  · intro e h1 h2 h3 h4
    simp [vmCreateHandler, h1, h2, h3, h4]
  · intro e h1 h2 h3 h4 h5
    simp [vmCreateHandler, h1, h2, h3, h4, h5]
  · intro e h1 h2 h3 h4 h5 h6
    simp [vmCreateHandler, h1, h2, h3, h4, h5, h6]
  · intro e he hdg
    obtain ⟨h1, h2, h3, h4, h5, h6⟩ := he
    simp [vmCreateHandler, h1, h2, h3, h4, h5, h6, hdg]
  · intro e he hgi hnet
    obtain ⟨h1, h2, h3, h4, h5, h6⟩ := he
    obtain ⟨g, hg⟩ := hgi
    simp [vmCreateHandler, h1, h2, h3, h4, h5, h6, hg, hnet]
  · intro e he hgi hnet hcs
    obtain ⟨h1, h2, h3, h4, h5, h6⟩ := he
    obtain ⟨g, hg⟩ := hgi
    simp [vmCreateHandler, h1, h2, h3, h4, h5, h6, hg, hnet, hcs]
  · intro e hr hcr
    obtain ⟨⟨h1, h2, h3, h4, h5, h6⟩, ⟨g, hg⟩, hnet, hcs⟩ := hr
    simp [vmCreateHandler, h1, h2, h3, h4, h5, h6, hg, hnet, hcs, hcr]
  · intro e hr hcr hwc
    obtain ⟨⟨h1, h2, h3, h4, h5, h6⟩, ⟨g, hg⟩, hnet, hcs⟩ := hr
    simp [vmCreateHandler, h1, h2, h3, h4, h5, h6, hg, hnet, hcs, hcr, hwc]
  · intro e hr hcr hwc hpr
    obtain ⟨⟨h1, h2, h3, h4, h5, h6⟩, ⟨g, hg⟩, hnet, hcs⟩ := hr
    simp [vmCreateHandler, h1, h2, h3, h4, h5, h6, hg, hnet, hcs, hcr, hwc, hpr]
  · intro e hr hcr hwc hpr hmac
    obtain ⟨⟨h1, h2, h3, h4, h5, h6⟩, ⟨g, hg⟩, hnet, hcs⟩ := hr
    simp [vmCreateHandler, h1, h2, h3, h4, h5, h6, hg, hnet, hcs, hcr, hwc, hpr,
      hmac]
  · intro e hr hcr hwc hpr hmac hpost
    obtain ⟨⟨h1, h2, h3, h4, h5, h6⟩, ⟨g, hg⟩, hnet, hcs⟩ := hr
    simp [vmCreateHandler, h1, h2, h3, h4, h5, h6, hg, hnet, hcs, hcr, hwc, hpr,
      hmac, hpost]
  · intro e hp hpon
    obtain ⟨⟨⟨h1, h2, h3, h4, h5, h6⟩, ⟨g, hg⟩, hnet, hcs⟩, hcr, hwc, hpr, hmac,
      hpost⟩ := hp
    simp [vmCreateHandler, h1, h2, h3, h4, h5, h6, hg, hnet, hcs, hcr, hwc, hpr,
      hmac, hpost, hpon]
  · intro e hp hpon hwpo
    obtain ⟨⟨⟨h1, h2, h3, h4, h5, h6⟩, ⟨g, hg⟩, hnet, hcs⟩, hcr, hwc, hpr, hmac,
      hpost⟩ := hp
    simp [vmCreateHandler, h1, h2, h3, h4, h5, h6, hg, hnet, hcs, hcr, hwc, hpr,
      hmac, hpost, hpon, hwpo]
  · intro e hp hpon hwpo hw1
    obtain ⟨⟨⟨h1, h2, h3, h4, h5, h6⟩, ⟨g, hg⟩, hnet, hcs⟩, hcr, hwc, hpr, hmac,
      hpost⟩ := hp
    simp [vmCreateHandler, h1, h2, h3, h4, h5, h6, hg, hnet, hcs, hcr, hwc, hpr,
      hmac, hpost, hpon, hwpo, hw1]
  · intro e hp hpon hwpo hw1
    obtain ⟨⟨⟨h1, h2, h3, h4, h5, h6⟩, ⟨g, hg⟩, hnet, hcs⟩, hcr, hwc, hpr, hmac,
      hpost⟩ := hp
    simp [vmCreateHandler, h1, h2, h3, h4, h5, h6, hg, hnet, hcs, hcr, hwc, hpr,
      hmac, hpost, hpon, hwpo, hw1]
  · intro e hp hpon hwpo hw1 hfn
    obtain ⟨⟨⟨h1, h2, h3, h4, h5, h6⟩, ⟨g, hg⟩, hnet, hcs⟩, hcr, hwc, hpr, hmac,
      hpost⟩ := hp
    simp [vmCreateHandler, h1, h2, h3, h4, h5, h6, hg, hnet, hcs, hcr, hwc, hpr,
      hmac, hpost, hpon, hwpo, hw1, hfn]
  · intro e hm hcm hfb
    obtain ⟨⟨h1, h2, h3, h4, h5, h6⟩, ⟨g, hg⟩, hnet, hcs, hcr, hwc, hpr, hmac,
      hpost, hpon, hwpo, hw1, hfn⟩ := hm
    simp [vmCreateHandler, h1, h2, h3, h4, h5, h6, hg, hnet, hcs, hcr, hwc, hpr,
      hmac, hpost, hpon, hwpo, hw1, hfn, hcm, hfb]
  · intro e hm hcm hfb hre
    obtain ⟨⟨h1, h2, h3, h4, h5, h6⟩, ⟨g, hg⟩, hnet, hcs, hcr, hwc, hpr, hmac,
      hpost, hpon, hwpo, hw1, hfn⟩ := hm
    simp [vmCreateHandler, h1, h2, h3, h4, h5, h6, hg, hnet, hcs, hcr, hwc, hpr,
      hmac, hpost, hpon, hwpo, hw1, hfn, hcm, hfb, hre]
  · intro e hm hcm hfb hre hwe
    obtain ⟨⟨h1, h2, h3, h4, h5, h6⟩, ⟨g, hg⟩, hnet, hcs, hcr, hwc, hpr, hmac,
      hpost, hpon, hwpo, hw1, hfn⟩ := hm
    simp [vmCreateHandler, h1, h2, h3, h4, h5, h6, hg, hnet, hcs, hcr, hwc, hpr,
      hmac, hpost, hpon, hwpo, hw1, hfn, hcm, hfb, hre, hwe]
  · intro e hm hcm hfb hre hwe hdel
    obtain ⟨⟨h1, h2, h3, h4, h5, h6⟩, ⟨g, hg⟩, hnet, hcs, hcr, hwc, hpr, hmac,
      hpost, hpon, hwpo, hw1, hfn⟩ := hm
    simp [vmCreateHandler, h1, h2, h3, h4, h5, h6, hg, hnet, hcs, hcr, hwc, hpr,
      hmac, hpost, hpon, hwpo, hw1, hfn, hcm, hfb, hre, hwe, hdel]
  · intro e hm hcm hsd
    obtain ⟨⟨h1, h2, h3, h4, h5, h6⟩, ⟨g, hg⟩, hnet, hcs, hcr, hwc, hpr, hmac,
      hpost, hpon, hwpo, hw1, hfn⟩ := hm
    simp [vmCreateHandler, h1, h2, h3, h4, h5, h6, hg, hnet, hcs, hcr, hwc, hpr,
      hmac, hpost, hpon, hwpo, hw1, hfn, hcm, hsd]
  · intro e hm hcm hsd hpl
    obtain ⟨⟨h1, h2, h3, h4, h5, h6⟩, ⟨g, hg⟩, hnet, hcs, hcr, hwc, hpr, hmac,
      hpost, hpon, hwpo, hw1, hfn⟩ := hm
    simp [vmCreateHandler, h1, h2, h3, h4, h5, h6, hg, hnet, hcs, hcr, hwc, hpr,
      hmac, hpost, hpon, hwpo, hw1, hfn, hcm, hsd, hpl]
  · intro e hcp hrm
    obtain ⟨⟨⟨h1, h2, h3, h4, h5, h6⟩, ⟨g, hg⟩, hnet, hcs, hcr, hwc, hpr, hmac,
      hpost, hpon, hwpo, hw1, hfn⟩, hcm, hsd, hpl⟩ := hcp
    simp [vmCreateHandler, h1, h2, h3, h4, h5, h6, hg, hnet, hcs, hcr, hwc, hpr,
      hmac, hpost, hpon, hwpo, hw1, hfn, hcm, hsd, hpl, hrm]
  · intro e hcp hrm hwr
    obtain ⟨⟨⟨h1, h2, h3, h4, h5, h6⟩, ⟨g, hg⟩, hnet, hcs, hcr, hwc, hpr, hmac,
      hpost, hpon, hwpo, hw1, hfn⟩, hcm, hsd, hpl⟩ := hcp
    simp [vmCreateHandler, h1, h2, h3, h4, h5, h6, hg, hnet, hcs, hcr, hwc, hpr,
      hmac, hpost, hpon, hwpo, hw1, hfn, hcm, hsd, hpl, hrm, hwr]
  · intro e hcp hrm hwr hadd
    obtain ⟨⟨⟨h1, h2, h3, h4, h5, h6⟩, ⟨g, hg⟩, hnet, hcs, hcr, hwc, hpr, hmac,
      hpost, hpon, hwpo, hw1, hfn⟩, hcm, hsd, hpl⟩ := hcp
    simp [vmCreateHandler, h1, h2, h3, h4, h5, h6, hg, hnet, hcs, hcr, hwc, hpr,
      hmac, hpost, hpon, hwpo, hw1, hfn, hcm, hsd, hpl, hrm, hwr, hadd]
  · intro e hcp hrm hwr hadd hwa
    obtain ⟨⟨⟨h1, h2, h3, h4, h5, h6⟩, ⟨g, hg⟩, hnet, hcs, hcr, hwc, hpr, hmac,
      hpost, hpon, hwpo, hw1, hfn⟩, hcm, hsd, hpl⟩ := hcp
    simp [vmCreateHandler, h1, h2, h3, h4, h5, h6, hg, hnet, hcs, hcr, hwc, hpr,
      hmac, hpost, hpon, hwpo, hw1, hfn, hcm, hsd, hpl, hrm, hwr, hadd, hwa]
  · intro e hcp hrm hwr hadd hwa hp2
    obtain ⟨⟨⟨h1, h2, h3, h4, h5, h6⟩, ⟨g, hg⟩, hnet, hcs, hcr, hwc, hpr, hmac,
      hpost, hpon, hwpo, hw1, hfn⟩, hcm, hsd, hpl⟩ := hcp
    simp [vmCreateHandler, h1, h2, h3, h4, h5, h6, hg, hnet, hcs, hcr, hwc, hpr,
      hmac, hpost, hpon, hwpo, hw1, hfn, hcm, hsd, hpl, hrm, hwr, hadd, hwa, hp2]
  · intro e hcp hrm hwr hadd hwa hp2 hw2
    obtain ⟨⟨⟨h1, h2, h3, h4, h5, h6⟩, ⟨g, hg⟩, hnet, hcs, hcr, hwc, hpr, hmac,
      hpost, hpon, hwpo, hw1, hfn⟩, hcm, hsd, hpl⟩ := hcp
    simp [vmCreateHandler, h1, h2, h3, h4, h5, h6, hg, hnet, hcs, hcr, hwc, hpr,
      hmac, hpost, hpon, hwpo, hw1, hfn, hcm, hsd, hpl, hrm, hwr, hadd, hwa, hp2,
      hw2]
  · intro e hcp hrm hwr hadd hwa hp2 hw2
    obtain ⟨⟨⟨h1, h2, h3, h4, h5, h6⟩, ⟨g, hg⟩, hnet, hcs, hcr, hwc, hpr, hmac,
      hpost, hpon, hwpo, hw1, hfn⟩, hcm, hsd, hpl⟩ := hcp
    simp [vmCreateHandler, h1, h2, h3, h4, h5, h6, hg, hnet, hcs, hcr, hwc, hpr,
      hmac, hpost, hpon, hwpo, hw1, hfn, hcm, hsd, hpl, hrm, hwr, hadd, hwa, hp2,
      hw2]
  · intro e hcp hrm hwr hadd hwa hp2 hw2 hdel
    obtain ⟨⟨⟨h1, h2, h3, h4, h5, h6⟩, ⟨g, hg⟩, hnet, hcs, hcr, hwc, hpr, hmac,
      hpost, hpon, hwpo, hw1, hfn⟩, hcm, hsd, hpl⟩ := hcp
    simp [vmCreateHandler, h1, h2, h3, h4, h5, h6, hg, hnet, hcs, hcr, hwc, hpr,
      hmac, hpost, hpon, hwpo, hw1, hfn, hcm, hsd, hpl, hrm, hwr, hadd, hwa, hp2,
      hw2, hdel]
  · intro e hm hcm hfb htl
    obtain ⟨⟨h1, h2, h3, h4, h5, h6⟩, ⟨g, hg⟩, hnet, hcs, hcr, hwc, hpr, hmac,
      hpost, hpon, hwpo, hw1, hfn⟩ := hm
    obtain ⟨hsd, hpl, hrm, hwr, hadd, hwa, hp2, hw2, hdel⟩ := htl
    simp [vmCreateHandler, h1, h2, h3, h4, h5, h6, hg, hnet, hcs, hcr, hwc, hpr,
      hmac, hpost, hpon, hwpo, hw1, hfn, hcm, hfb, hsd, hpl, hrm, hwr, hadd, hwa,
      hp2, hw2, hdel]

/-- C2 witness: a failed connect is process-fatal; a failed datacenter
lookup ends only the worker. -/
theorem vmCreateHandler_failure_sites_classified_witness :
    (vmCreateHandler {envBase with connectOk := false}).1 = .fatal ∧
    (vmCreateHandler {envBase with dcOk := false}).1 = .workerReturn :=
  ⟨vmCreateHandler_failure_sites_classified.1 {envBase with connectOk := false} rfl,
   vmCreateHandler_failure_sites_classified.2.1 {envBase with dcOk := false} rfl rfl⟩
